import Mathlib

/-!
# Verification of the MULTI-OCR-SDK request orchestration core

A shallow embedding, in Lean 4, of the rate-limit / retry / dispatch /
page-pipeline core of the MULTI-OCR-SDK repository:

* `RateLimiter.get_retry_delay`  — `multi_ocr_sdk/basic_utils/rate_limiter.py`
* `request_sync`                 — `multi_ocr_sdk/basic_utils/api_requester.py`
  (the same loop appears as `DeepSeekOCR._make_api_request_sync` in
  `deepseek_ocr/client.py`)
* `make_api_request_async`       — `DeepSeekOCR._make_api_request_async`
* `process_page` / `parse` / `parse_async` — page pipeline and fallback policy
  of `deepseek_ocr/client.py`
* `VLMClient.parse`              — `multi_ocr_sdk/vlm_client.py`
* the `OCRConfig` dataclass      — `deepseek_ocr/config.py`

Python floats that only ever multiply by powers of two are modelled as
rationals (`ℚ`); arbitrary-precision Python ints as `Nat`.  Network I/O is
modelled by an oracle `net : Nat → HttpEvent` giving the outcome of the k-th
underlying HTTP call of a dispatcher invocation.  Exceptions are modelled by
an explicit `PyError` sum type; a raised exception is an `Except.error`.
-/

/-- The Python exception values that can escape the core.  `rateLimitError`
and `apiError` carry the `status_code` / `response_text` attributes given to
their constructors; `jsonDecodeError` stands for the foreign
`requests.exceptions.JSONDecodeError` raised by `response.json()` on a
malformed body (it is *not* one of the SDK's own exception classes);
`attributeError` stands for Python's built-in `AttributeError` raised when a
read attribute does not exist on an object. -/
inductive PyError where
  | rateLimitError (message : String) (statusCode : Option Nat)
      (responseText : Option String)
  | apiError (message : String) (statusCode : Option Nat)
      (responseText : Option String)
  | timeoutError (message : String)
  | jsonDecodeError
  | attributeError (name : String)
  deriving Repr, DecidableEq

/-- Membership in the SDK's `APIError` class (`exceptions.py`):
`RateLimitError` subclasses `APIError`, so both count; the foreign
`jsonDecodeError` and the built-in `attributeError` do not. -/
def PyError.isAPIError : PyError → Bool
  | .rateLimitError _ _ _ => true
  | .apiError _ _ _ => true
  | _ => false

/-- `choices[i].message.content` of a decoded chat-completion response. -/
structure ChatMessage where
  content : String
  deriving Repr, DecidableEq

/-- One element of the `choices` array. -/
structure Choice where
  message : ChatMessage
  deriving Repr, DecidableEq

/-- The decoded JSON body that `response.json()` yields.  The `choices` key
may be absent (`none`), present but empty (`some []`), or non-empty. -/
structure ApiResult where
  choices : Option (List Choice)
  deriving Repr, DecidableEq

/-- Outcome of one underlying HTTP POST: a transport timeout, or a response
with a status code, a text body, and — when the body is well-formed JSON —
its decoded value (`none` models a malformed / non-JSON body). -/
inductive HttpEvent where
  | timeout
  | resp (status : Nat) (text : String) (json : Option ApiResult)
  deriving Repr, DecidableEq

/-- `RateLimiter` (`basic_utils/rate_limiter.py`): configuration fields set
in `__init__` plus the mutable `_last_request_time`.  The `deepseek_ocr`
client keeps the same three configuration values on its config object and
`_last_request_time` on the client itself; one structure models both. -/
structure RateLimiter where
  request_delay : ℚ
  max_retries : Nat
  retry_delay : ℚ
  last_request_time : Option ℚ
  deriving Repr, DecidableEq

/-- `RateLimiter.get_retry_delay` (`rate_limiter.py` lines 63–73):
`return self.retry_delay * (2**attempt)`.  The method body contains no
assignment, so as a state transformer it returns the delay together with the
unchanged limiter state. -/
def RateLimiter.get_retry_delay (rl : RateLimiter) (attempt : Nat) :
    ℚ × RateLimiter :=
  (rl.retry_delay * 2 ^ attempt, rl)

/-- `RateLimiter.should_retry` (`rate_limiter.py` lines 75–86). -/
def RateLimiter.should_retry (rl : RateLimiter) (attempt : Nat)
    (enable_retry : Bool) : Bool :=
  enable_retry && decide (attempt < rl.max_retries)

/-- Observable outcome of one dispatcher invocation: the returned value or
raised exception, the number of underlying HTTP calls performed, the backoff
sleeps performed (in order), and whether the defensive post-loop
`RateLimitError("Rate limit retries exhausted")` raise was executed. -/
structure SendOutcome where
  result : Except PyError ApiResult
  calls : Nat
  sleeps : List ℚ
  usedPostLoopRaise : Bool
  deriving Repr

/-- The body of `APIRequester.request_sync`'s retry loop
(`api_requester.py` lines 59–110), written as recursion on the number of
remaining loop iterations; `attempt` is the current index of
`for attempt in range(max_retries + 1)` and also the number of HTTP calls
already made (each iteration makes exactly one `requests.post`).  Reaching
`remaining = 0` is the loop falling through to line 110's defensive raise.
`net attempt` is the outcome of the iteration's `requests.post`. -/
def request_sync_loop (rl : RateLimiter) (enable_rate_limit_retry : Bool)
    (net : Nat → HttpEvent) : Nat → Nat → List ℚ → SendOutcome
  | _remaining@0, attempt, sleeps =>
      { result := .error (.rateLimitError "Rate limit retries exhausted"
          (some 429) none)
        calls := attempt, sleeps := sleeps, usedPostLoopRaise := true }
  | remaining + 1, attempt, sleeps =>
      match net attempt with
      | .timeout =>
          { result := .error (.timeoutError "Request timed out")
            calls := attempt + 1, sleeps := sleeps, usedPostLoopRaise := false }
      | .resp status text json =>
          if status = 429 then
            if !enable_rate_limit_retry || rl.max_retries ≤ attempt then
              { result := .error (.rateLimitError
                  ("Rate limit exceeded: " ++ text) (some 429) (some text))
                calls := attempt + 1, sleeps := sleeps
                usedPostLoopRaise := false }
            else
              request_sync_loop rl enable_rate_limit_retry net remaining
                (attempt + 1)
                (sleeps ++ [(rl.get_retry_delay attempt).1])
          else if status ≠ 200 then
            { result := .error (.apiError ("API request failed: " ++ text)
                (some status) (some text))
              calls := attempt + 1, sleeps := sleeps
              usedPostLoopRaise := false }
          else
            match json with
            | none =>
                { result := .error .jsonDecodeError, calls := attempt + 1
                  sleeps := sleeps, usedPostLoopRaise := false }
            | some r =>
                { result := .ok r, calls := attempt + 1, sleeps := sleeps
                  usedPostLoopRaise := false }

/-- `APIRequester.request_sync` (`api_requester.py` lines 33–110): run the
loop for `max_retries + 1` iterations starting at attempt 0.  The same
algorithm is `DeepSeekOCR._make_api_request_sync`
(`deepseek_ocr/client.py` lines 514–563) with the three configuration values
read from `self.config`. -/
def request_sync (rl : RateLimiter) (enable_rate_limit_retry : Bool)
    (net : Nat → HttpEvent) : SendOutcome :=
  request_sync_loop rl enable_rate_limit_retry net (rl.max_retries + 1) 0 []

/-- `DeepSeekOCR._make_api_request_async` (`deepseek_ocr/client.py` lines
409–472) differs from the sync loop only in keeping `last_error`: after a
429 backoff sleep it stores the would-be `RateLimitError` and continues;
after the loop it raises `last_error` if set, else the defensive
"retries exhausted" error.  Either post-loop raise sets the flag. -/
def make_api_request_async_loop (rl : RateLimiter)
    (enable_rate_limit_retry : Bool) (net : Nat → HttpEvent) :
    Nat → Nat → List ℚ → Option PyError → SendOutcome
  | _remaining@0, attempt, sleeps, lastError =>
      { result := .error (lastError.getD (.rateLimitError
          "Rate limit retries exhausted" (some 429) none))
        calls := attempt, sleeps := sleeps, usedPostLoopRaise := true }
  | remaining + 1, attempt, sleeps, lastError =>
      match net attempt with
      | .timeout =>
          { result := .error (.timeoutError "Request timed out")
            calls := attempt + 1, sleeps := sleeps, usedPostLoopRaise := false }
      | .resp status text json =>
          if status = 429 then
            if !enable_rate_limit_retry || rl.max_retries ≤ attempt then
              { result := .error (.rateLimitError
                  ("Rate limit exceeded: " ++ text) (some 429) (some text))
                calls := attempt + 1, sleeps := sleeps
                usedPostLoopRaise := false }
            else
              make_api_request_async_loop rl enable_rate_limit_retry net
                remaining (attempt + 1)
                (sleeps ++ [rl.retry_delay * 2 ^ attempt])
                (some (.rateLimitError ("Rate limit exceeded: " ++ text)
                  (some 429) (some text)))
          else if status ≠ 200 then
            { result := .error (.apiError ("API request failed: " ++ text)
                (some status) (some text))
              calls := attempt + 1, sleeps := sleeps
              usedPostLoopRaise := false }
          else
            match json with
            | none =>
                { result := .error .jsonDecodeError, calls := attempt + 1
                  sleeps := sleeps, usedPostLoopRaise := false }
            | some r =>
                { result := .ok r, calls := attempt + 1, sleeps := sleeps
                  usedPostLoopRaise := false }

/-- The full async request: loop for `max_rate_limit_retries + 1`
iterations from attempt 0 with no stored error. -/
def make_api_request_async (rl : RateLimiter) (enable_rate_limit_retry : Bool)
    (net : Nat → HttpEvent) : SendOutcome :=
  make_api_request_async_loop rl enable_rate_limit_retry net
    (rl.max_retries + 1) 0 [] none

/-! ## OCR modes and output cleaning (`deepseek_ocr/enums.py`, `client.py`) -/

/-- The `OCRMode` enum (`deepseek_ocr/enums.py`). -/
inductive OCRMode where
  | free_ocr
  | grounding
  | ocr_image
  deriving Repr, DecidableEq

/-- The `value` of each `OCRMode` member. -/
def OCRMode.value : OCRMode → String
  | .free_ocr => "free_ocr"
  | .grounding => "grounding"
  | .ocr_image => "ocr_image"

/-- Python's `OCRMode(s)` enum lookup by value: `none` models the
`ValueError` raised when `s` is not the value of any member. -/
def OCRMode.ofValue? (s : String) : Option OCRMode :=
  if s = "free_ocr" then some .free_ocr
  else if s = "grounding" then some .grounding
  else if s = "ocr_image" then some .ocr_image
  else none

/-- `OCRMode.get_prompt` (`enums.py` lines 37–49). -/
def OCRMode.get_prompt : OCRMode → String
  | .free_ocr => "Free OCR."
  | .grounding => "<|grounding|>Convert the document to markdown."
  | .ocr_image => "<|grounding|>OCR this image."

/-- Try to match the tail `qs` of a literal pattern at the head of `l`;
on success return what follows the match. -/
def dropPatTail : List Char → List Char → Option (List Char)
  | [], l => some l
  | _ :: _, [] => none
  | q :: qs, c :: cs => if c = q then dropPatTail qs cs else none

/-- `re.sub(pattern, "", s)` for a literal pattern `p :: ps`: scan left to
right, remove each non-overlapping occurrence, and do not rescan the
result (Python's `re.sub` semantics).  `fuel` is a termination device; a
call with `fuel ≥ length of the list` never exhausts it, since every step
consumes at least one character. -/
def removeAllF (p : Char) (ps : List Char) : Nat → List Char → List Char
  | 0, l => l
  | _ + 1, [] => []
  | fuel + 1, c :: cs =>
    if c = p then
      match dropPatTail ps cs with
      | some rest => removeAllF p ps fuel rest
      | none => c :: removeAllF p ps fuel cs
    else c :: removeAllF p ps fuel cs

/-- Remove every non-overlapping occurrence of the literal pattern
`p :: ps` from `l`, left to right. -/
def removeAll (p : Char) (ps : List Char) (l : List Char) : List Char :=
  removeAllF p ps l.length l

/-- The ASCII whitespace characters Python's `str.strip()` removes
(space, tab, newline, carriage return, vertical tab, form feed). -/
def isPySpace (c : Char) : Bool :=
  c = ' ' || c = '\t' || c = '\n' || c = '\r' ||
    c = (Char.ofNat 11) || c = (Char.ofNat 12)

/-- `str.strip()`: drop leading and trailing whitespace. -/
def pyStrip (l : List Char) : List Char :=
  ((l.dropWhile isPySpace).reverse.dropWhile isPySpace).reverse

/-- `DeepSeekOCR._clean_output` (`client.py` lines 314–327):
`re.sub(r"<\|ref\|>", "", text)`, then `re.sub(r"<\|det\|>", "", ·)`,
then `.strip()`. -/
def clean_output (text : String) : String :=
  String.mk (pyStrip
    (removeAll '<' "|det|>".toList
      (removeAll '<' "|ref|>".toList text.toList)))

/-! ## Page pipeline with fallback (`deepseek_ocr/client.py`) -/

/-- The configuration attributes the page pipeline reads from
`self.config`: the fallback policy values and the page separator. -/
structure PageCfg where
  fallback_enabled : Bool
  fallback_mode : String
  min_output_threshold : Nat
  page_separator : String
  deriving Repr

/-- Processing of one page inside `DeepSeekOCR.parse` (`client.py` lines
840–900) and `process_page` of `DeepSeekOCR.parse_async` (lines 657–717) —
the two bodies are identical.  `firstResp` / `fallbackResp` are the
outcomes of the page's first-pass and (potential) fallback dispatcher
calls.  Returns the page's outcome together with the number of dispatcher
calls made for the page. -/
def process_page (cfg : PageCfg) (mode : OCRMode)
    (firstResp fallbackResp : Except PyError ApiResult) :
    Except PyError String × Nat :=
  match firstResp with
  | .error e => (.error e, 1)
  | .ok result =>
    match result.choices with
    | none =>
        (.error (.apiError "Invalid API response: no choices returned"
          none none), 1)
    | some [] =>
        (.error (.apiError "Invalid API response: no choices returned"
          none none), 1)
    | some (c :: _) =>
      let text := clean_output c.message.content
      if cfg.fallback_enabled ∧ mode = .free_ocr ∧
          text.length < cfg.min_output_threshold then
        -- try-block: `OCRMode(self.config.fallback_mode)` may raise
        -- ValueError (caught, original text kept, no dispatcher call);
        -- a failing dispatcher call is likewise caught.
        match OCRMode.ofValue? cfg.fallback_mode with
        | none => (.ok text, 1)
        | some _fm =>
          match fallbackResp with
          | .error _e => (.ok text, 2)
          | .ok fr =>
            match fr.choices with
            | some (fc :: _) => (.ok (clean_output fc.message.content), 2)
            | _ => (.ok text, 2)
      else (.ok text, 1)

/-- The exception-collection loop of `DeepSeekOCR.parse_async` (lines
726–732): walk the gathered results in index order, re-raise the first
exception, otherwise keep all texts. -/
def collectOk : List (Except PyError String) → Except PyError (List String)
  | [] => .ok []
  | .error e :: _ => .error e
  | .ok t :: rest => (collectOk rest).map (t :: ·)

/-- `DeepSeekOCR.parse` (lines 838–914): sequential page loop; the first
page failure propagates immediately, skipping the remaining pages; on
success the texts are joined with `config.page_separator`.  Each page's
dispatcher outcomes are given by the oracle pair list `pages`. -/
def parse_pages_sync (cfg : PageCfg) (mode : OCRMode) :
    List (Except PyError ApiResult × Except PyError ApiResult) →
    Except PyError (List String)
  | [] => .ok []
  | (f, fb) :: rest =>
    match (process_page cfg mode f fb).1 with
    | .error e => .error e
    | .ok t => (parse_pages_sync cfg mode rest).map (t :: ·)

/-- The document result of `DeepSeekOCR.parse`. -/
def parse_model (cfg : PageCfg) (mode : OCRMode)
    (pages : List (Except PyError ApiResult × Except PyError ApiResult)) :
    Except PyError String :=
  (parse_pages_sync cfg mode pages).map
    (String.intercalate cfg.page_separator)

/-- `DeepSeekOCR.parse_async` (lines 719–746): `asyncio.gather` with
`return_exceptions=True` yields the per-page outcomes in argument
(= page-index) order regardless of completion order; the collection loop
then re-raises the first exception by index or joins the texts with
`config.page_separator`. -/
def parse_async_model (cfg : PageCfg) (mode : OCRMode)
    (pages : List (Except PyError ApiResult × Except PyError ApiResult)) :
    Except PyError String :=
  (collectOk (pages.map fun p => (process_page cfg mode p.1 p.2).1)).map
    (String.intercalate cfg.page_separator)

/-! ## The generic VLM client (`multi_ocr_sdk/vlm_client.py`) -/

/-- `VLMClient._process_single_page` (lines 152–192): call the dispatcher;
extract `choices[0].message.content` when the `choices` array is present
and non-empty, else return `""`.  A dispatcher exception propagates. -/
def vlm_process_single_page (resp : Except PyError ApiResult) :
    Except PyError String :=
  match resp with
  | .error e => .error e
  | .ok r =>
    match r.choices with
    | some (c :: _) => .ok c.message.content
    | _ => .ok ""

/-- The literal page separator of `VLMClient.parse` (line 273). -/
def vlm_page_separator : String := "\n\n---\n\n"

/-- The value stored into `all_texts[idx]` by the thread-pool collection
loop of `VLMClient.parse` (lines 254–263): the page's text on success,
`""` when `future.result()` re-raises the page's exception (the exception
is logged and swallowed), and positions never written keep their initial
`""`. -/
def textOrEmpty : Option (Except PyError String) → String
  | some (.ok t) => t
  | _ => ""

/-- The thread-pool fan-in of `VLMClient.parse` (lines 230–263):
`all_texts = [""] * len(images)`, then for each completed future, in
completion order `order`, write the page's text (or `""` on failure) at
its original index. -/
def fillTexts (results : List (Except PyError String)) (order : List Nat) :
    List String :=
  order.foldl (fun acc idx => acc.set idx (textOrEmpty (results.get? idx)))
    (List.replicate results.length "")

/-- `VLMClient.parse` (lines 194–273), given the per-page dispatcher
outcomes `pageResps` and — for the thread-pool branch — the completion
order `order` of the futures.  The thread-pool branch runs only when
`actual_concurrency > 1` and there is more than one page; it never raises
a page failure.  The sequential branch propagates the first page
exception. -/
def vlm_parse_model (actual_concurrency : Nat)
    (pageResps : List (Except PyError ApiResult)) (order : List Nat) :
    Except PyError String :=
  let results := pageResps.map vlm_process_single_page
  if 1 < actual_concurrency ∧ 1 < pageResps.length then
    .ok (String.intercalate vlm_page_separator (fillTexts results order))
  else
    (collectOk results).map (String.intercalate vlm_page_separator)

/-! ## The `deepseek_ocr` package's `OCRConfig` dataclass (`config.py`) -/

/-- The exact field names of the `OCRConfig` dataclass
(`deepseek_ocr/config.py` lines 49–58). -/
def OCRConfig.fieldNames : List String :=
  ["api_key", "base_url", "model_name", "timeout", "max_tokens",
   "temperature", "dpi", "fallback_enabled", "fallback_mode",
   "min_output_threshold"]

/-- The configuration attributes `deepseek_ocr/client.py` reads that the
claim under scrutiny lists: `request_delay` (lines 144, 165),
`enable_rate_limit_retry` (425, 529), `max_rate_limit_retries` (411, 514),
`rate_limit_retry_delay` (435, 539), `page_separator` (735, 903). -/
def deepseekClientConfigReads : List String :=
  ["request_delay", "enable_rate_limit_retry", "max_rate_limit_retries",
   "rate_limit_retry_delay", "page_separator"]

/-- Python attribute access on an object whose attribute set is `fields`:
a missing attribute raises `AttributeError`. -/
def readAttr (fields : List String) (name : String) : Except PyError Unit :=
  if name ∈ fields then .ok () else .error (.attributeError name)

/-- Perform a sequence of attribute reads in order; the first missing
attribute aborts the sequence. -/
def runReads (fields : List String) : List String → Except PyError Unit
  | [] => .ok ()
  | n :: rest =>
    match readAttr fields n with
    | .error e => .error e
    | .ok _ => runReads fields rest

/-- The `self.config` attribute reads `DeepSeekOCR.parse` performs, in
source order, from the start of the call (with a successfully rendered
document and default arguments) up to page 0's first HTTP call: `dpi`
(line 821), then inside `_make_api_request_sync` `api_key` (491),
`model_name` (496), `temperature` (509), `max_tokens` (510), and
`max_rate_limit_retries` (514, evaluated for `range` before the loop
body); the `requests.post` of page 0 happens only after all of these. -/
def parse_configReadTrace : List String :=
  ["dpi", "api_key", "model_name", "temperature", "max_tokens",
   "max_rate_limit_retries"]

/-- Likewise for `DeepSeekOCR.parse_async` / `_make_api_request_async`:
`dpi` (639), `api_key` (385), `model_name` (390), `temperature` (403),
`max_tokens` (404), `timeout` (407), `max_rate_limit_retries` (411). -/
def parse_async_configReadTrace : List String :=
  ["dpi", "api_key", "model_name", "temperature", "max_tokens", "timeout",
   "max_rate_limit_retries"]

/-- Extract the text of a successful page outcome (`""` for an error);
used only to state results about runs whose pages all succeeded. -/
def okD : Except PyError String → String
  | .ok t => t
  | .error _ => ""

/-! ## Concrete fixtures used by witness theorems -/

/-- A rate limiter with `max_retries = 2` (as `max_rate_limit_retries ≥ 2`
in the retry scenario) and base backoff delay 5. -/
def wRL : RateLimiter :=
  { request_delay := 0, max_retries := 2, retry_delay := 5,
    last_request_time := none }

/-- A well-formed decoded 200 payload with one choice. -/
def wOk : ApiResult := { choices := some [{ message := { content := "ok" } }] }

/-- A network oracle answering 429, 429, then 200 with a well-formed
body. -/
def wNet3 : Nat → HttpEvent := fun k =>
  if k = 0 then .resp 429 "slow down" none
  else if k = 1 then .resp 429 "slow down" none
  else .resp 200 "body" (some wOk)

/-- A network oracle answering 429 on every call. -/
def wNet429 : Nat → HttpEvent := fun _ => .resp 429 "slow down" none

/-- A network oracle answering 200 with a malformed (non-JSON) body. -/
def wNet200Bad : Nat → HttpEvent := fun _ => .resp 200 "<html>" none

/-- A network oracle answering 200 with a well-formed body. -/
def wNet200Ok : Nat → HttpEvent := fun _ => .resp 200 "body" (some wOk)

/-- The default page-pipeline configuration of the OCR client (fallback to
`grounding` below 500 cleaned characters, markdown-rule page separator). -/
def wCfg : PageCfg :=
  { fallback_enabled := true, fallback_mode := "grounding",
    min_output_threshold := 500, page_separator := "\n\n---\n\n" }

/-- A first-pass choice whose cleaned text ("Short") is below the
threshold. -/
def wShortChoice : Choice := { message := { content := "Short" } }

/-- A first-pass response with the single short choice. -/
def wShort : ApiResult := { choices := some [wShortChoice] }

/-- A fallback choice whose text ("Tiny") is itself below the threshold —
exercising that the replacement is not re-compared for length. -/
def wTinyChoice : Choice := { message := { content := "Tiny" } }

/-- A successful fallback response with the single tiny choice. -/
def wTiny : ApiResult := { choices := some [wTinyChoice] }

/-- A successful page-1 response. -/
def wP1 : ApiResult := { choices := some [{ message := { content := "P1" } }] }

/-- A successful page-2 response. -/
def wP2 : ApiResult := { choices := some [{ message := { content := "P2" } }] }

/-- A two-page oracle where both pages' first passes succeed. -/
def wPages : List (Except PyError ApiResult × Except PyError ApiResult) :=
  [(.ok wP1, .ok wP1), (.ok wP2, .ok wP2)]

/-- A non-retryable dispatcher failure. -/
def wBoom : PyError :=
  .apiError "API request failed: boom" (some 500) (some "boom")

/-- A successful response whose single choice reads "B". -/
def wB : ApiResult := { choices := some [{ message := { content := "B" } }] }

/-- Two successful VLM page responses. -/
def wResps : List (Except PyError ApiResult) := [.ok wP1, .ok wP2]

/-! ## Step lemmas for the retry loop -/

/-- One loop iteration that sees a 429 with retry disabled or at the last
allowed attempt: raise `RateLimitError` with the status and body. -/
theorem request_sync_loop_done_429 (rl : RateLimiter) (enable : Bool)
    (net : Nat → HttpEvent) (remaining attempt : Nat) (sleeps : List ℚ)
    (text : String) (json : Option ApiResult)
    (hnet : net attempt = .resp 429 text json)
    (hstop : enable = false ∨ rl.max_retries ≤ attempt) :
    request_sync_loop rl enable net (remaining + 1) attempt sleeps =
      { result := .error (.rateLimitError ("Rate limit exceeded: " ++ text)
          (some 429) (some text))
        calls := attempt + 1, sleeps := sleeps
        usedPostLoopRaise := false } := by
  rcases hstop with he | hle
  · simp [request_sync_loop, hnet, he]
  · simp [request_sync_loop, hnet, hle]

/-- One loop iteration that sees a 429 with retry enabled and attempts to
spare: sleep `backoff_delay(attempt)` and continue with the next
attempt. -/
theorem request_sync_loop_step_429 (rl : RateLimiter) (enable : Bool)
    (net : Nat → HttpEvent) (remaining attempt : Nat) (sleeps : List ℚ)
    (text : String) (json : Option ApiResult)
    (hnet : net attempt = .resp 429 text json)
    (he : enable = true) (hlt : attempt < rl.max_retries) :
    request_sync_loop rl enable net (remaining + 1) attempt sleeps =
      request_sync_loop rl enable net remaining (attempt + 1)
        (sleeps ++ [rl.retry_delay * 2 ^ attempt]) := by
  have h : ¬ rl.max_retries ≤ attempt := by omega
  simp [request_sync_loop, hnet, he, h, RateLimiter.get_retry_delay]

/-- One loop iteration that sees a 200: return the parsed body, or fail
with the escaping `JSONDecodeError` when the body is malformed. -/
theorem request_sync_loop_done_200 (rl : RateLimiter) (enable : Bool)
    (net : Nat → HttpEvent) (remaining attempt : Nat) (sleeps : List ℚ)
    (text : String) (json : Option ApiResult)
    (hnet : net attempt = .resp 200 text json) :
    request_sync_loop rl enable net (remaining + 1) attempt sleeps =
      { result := match json with
          | some r => .ok r
          | none => .error .jsonDecodeError
        calls := attempt + 1, sleeps := sleeps
        usedPostLoopRaise := false } := by
  cases json <;> simp [request_sync_loop, hnet]

/-- One loop iteration whose `requests.post` times out: raise
`TimeoutError` immediately. -/
theorem request_sync_loop_done_timeout (rl : RateLimiter) (enable : Bool)
    (net : Nat → HttpEvent) (remaining attempt : Nat) (sleeps : List ℚ)
    (hnet : net attempt = .timeout) :
    request_sync_loop rl enable net (remaining + 1) attempt sleeps =
      { result := .error (.timeoutError "Request timed out")
        calls := attempt + 1, sleeps := sleeps
        usedPostLoopRaise := false } := by
  simp [request_sync_loop, hnet]

/-- One loop iteration that sees a status other than 429 and 200: raise
`APIError` with the status and body immediately. -/
theorem request_sync_loop_done_other (rl : RateLimiter) (enable : Bool)
    (net : Nat → HttpEvent) (remaining attempt : Nat) (sleeps : List ℚ)
    (status : Nat) (text : String) (json : Option ApiResult)
    (hnet : net attempt = .resp status text json)
    (h429 : status ≠ 429) (h200 : status ≠ 200) :
    request_sync_loop rl enable net (remaining + 1) attempt sleeps =
      { result := .error (.apiError ("API request failed: " ++ text)
          (some status) (some text))
        calls := attempt + 1, sleeps := sleeps
        usedPostLoopRaise := false } := by
  simp [request_sync_loop, hnet, h429, h200]

/-- Every iteration of the sync retry loop ends in return, raise, or a
`continue` taken only when `attempt < max_retries`: as long as at least
one iteration remains and `attempt + remaining > max_retries`, the loop
never falls through to the defensive post-loop raise. -/
theorem request_sync_loop_no_postloop (rl : RateLimiter) (enable : Bool)
    (net : Nat → HttpEvent) :
    ∀ remaining attempt sleeps,
      rl.max_retries < attempt + remaining → 1 ≤ remaining →
      (request_sync_loop rl enable net remaining attempt
        sleeps).usedPostLoopRaise = false := by
  intro remaining
  induction remaining with
  | zero => intro _ _ _ h1; omega
  | succ r ih =>
    intro attempt sleeps hinv _
    cases hnet : net attempt with
    | timeout =>
        rw [request_sync_loop_done_timeout rl enable net r attempt sleeps
          hnet]
    | resp status text json =>
      by_cases h429 : status = 429
      · subst h429
        by_cases he : enable = true
        · by_cases hle : rl.max_retries ≤ attempt
          · rw [request_sync_loop_done_429 rl enable net r attempt sleeps
              text json hnet (Or.inr hle)]
          · rw [request_sync_loop_step_429 rl enable net r attempt sleeps
              text json hnet he (by omega)]
            exact ih (attempt + 1) _ (by omega) (by omega)
        · have he' : enable = false := by
            cases enable
            · rfl
            · exact absurd rfl he
          rw [request_sync_loop_done_429 rl enable net r attempt sleeps
            text json hnet (Or.inl he')]
      · by_cases h200 : status = 200
        · subst h200
          rw [request_sync_loop_done_200 rl enable net r attempt sleeps
            text json hnet]
        · rw [request_sync_loop_done_other rl enable net r attempt sleeps
            status text json hnet h429 h200]

/-- The async loop satisfies the same invariant: each iteration returns,
raises, or continues with `attempt < max_retries`; neither post-loop raise
(`last_error` nor "retries exhausted") is reachable while
`attempt + remaining > max_retries` and an iteration remains. -/
theorem make_async_loop_no_postloop (rl : RateLimiter) (enable : Bool)
    (net : Nat → HttpEvent) :
    ∀ remaining attempt sleeps lastError,
      rl.max_retries < attempt + remaining → 1 ≤ remaining →
      (make_api_request_async_loop rl enable net remaining attempt sleeps
        lastError).usedPostLoopRaise = false := by
  intro remaining
  induction remaining with
  | zero => intro _ _ _ _ h1; omega
  | succ r ih =>
    intro attempt sleeps lastError hinv _
    cases hnet : net attempt with
    | timeout => simp [make_api_request_async_loop, hnet]
    | resp status text json =>
      by_cases h429 : status = 429
      · subst h429
        by_cases he : enable = true
        · by_cases hle : rl.max_retries ≤ attempt
          · simp [make_api_request_async_loop, hnet, he, hle]
          · simp only [make_api_request_async_loop, hnet]
            have hcond : (!enable || decide (rl.max_retries ≤ attempt)) =
                false := by
              simp [he, hle]
            simp only [hcond, if_pos rfl]
            simp only [if_true, if_false, Bool.false_eq_true, if_neg,
              reduceIte]
            exact ih (attempt + 1) _ _ (by omega) (by omega)
        · have he' : enable = false := by
            cases enable
            · rfl
            · exact absurd rfl he
          simp [make_api_request_async_loop, hnet, he']
      · by_cases h200 : status = 200
        · subst h200
          cases json <;> simp [make_api_request_async_loop, hnet]
        · simp [make_api_request_async_loop, hnet, h429, h200]

/-! ## Theorems -/

/-- **C9.** `backoff_delay(attempt)` equals `retry_delay_base * 2^attempt`
for every `attempt ≥ 0`, and the computation is pure: as a state
transformer, `RateLimiter.get_retry_delay` returns the configured base
delay times `2^attempt` and leaves the limiter's entire state — in
particular `last_request_time` — unchanged. -/
theorem get_retry_delay_spec (rl : RateLimiter) (attempt : Nat) :
    (rl.get_retry_delay attempt).1 = rl.retry_delay * 2 ^ attempt ∧
    (rl.get_retry_delay attempt).2 = rl ∧
    ((rl.get_retry_delay attempt).2).last_request_time =
      rl.last_request_time :=
  ⟨rfl, rfl, rfl⟩

/-- **C3.** At any attempt `0 ≤ attempt ≤ max_retries` receiving a 429:
with retry disabled or at the last attempt, the dispatcher raises
`RateLimitError` carrying status 429 and the response body after that one
additional HTTP call; otherwise it sleeps `backoff_delay(attempt)` and
proceeds to attempt `attempt + 1`.  With retry disabled and a first
response of 429, `request_sync` fails with `RateLimitError` after exactly
one underlying HTTP call. -/
theorem request_sync_429_policy (rl : RateLimiter) (enable : Bool)
    (net : Nat → HttpEvent) (attempt : Nat) (text : String)
    (json : Option ApiResult) (sleeps : List ℚ)
    (hle : attempt ≤ rl.max_retries)
    (hnet : net attempt = .resp 429 text json) :
    ((enable = false ∨ attempt = rl.max_retries) →
      request_sync_loop rl enable net (rl.max_retries + 1 - attempt) attempt
          sleeps =
        { result := .error (.rateLimitError ("Rate limit exceeded: " ++ text)
            (some 429) (some text))
          calls := attempt + 1, sleeps := sleeps
          usedPostLoopRaise := false }) ∧
    (enable = true → attempt < rl.max_retries →
      request_sync_loop rl enable net (rl.max_retries + 1 - attempt) attempt
          sleeps =
        request_sync_loop rl enable net (rl.max_retries - attempt)
          (attempt + 1) (sleeps ++ [rl.retry_delay * 2 ^ attempt])) ∧
    (enable = false → net 0 = .resp 429 text json →
      request_sync rl false net =
        { result := .error (.rateLimitError ("Rate limit exceeded: " ++ text)
            (some 429) (some text))
          calls := 1, sleeps := [], usedPostLoopRaise := false }) := by
  have hrem : rl.max_retries + 1 - attempt = (rl.max_retries - attempt) + 1 :=
    by omega
  refine ⟨?_, ?_, ?_⟩
  · intro hstop
    rw [hrem, request_sync_loop_done_429 rl enable net _ attempt sleeps text
        json hnet]
    rcases hstop with he | he
    · exact Or.inl he
    · exact Or.inr (by omega)
  · intro he hlt
    rw [hrem,
      request_sync_loop_step_429 rl enable net _ attempt sleeps text json
        hnet he hlt]
  · intro he hnet0
    rw [request_sync, request_sync_loop_done_429 rl false net rl.max_retries
      0 [] text json hnet0 (Or.inl rfl)]

/-- **C3 witness**: retry disabled, first response 429 — instantiated at a
concrete limiter and network oracle. -/
theorem request_sync_429_policy_witness :
    request_sync wRL false wNet429 =
      { result := .error (.rateLimitError "Rate limit exceeded: slow down"
          (some 429) (some "slow down"))
        calls := 1, sleeps := [], usedPostLoopRaise := false } :=
  ((request_sync_429_policy wRL false wNet429 0 "slow down" none []
      (by decide) rfl).2.2) rfl rfl

/-- **C4.** With retry enabled and `max_retries ≥ 2`, the response
sequence `[429, 429, 200]` (well-formed 200 body) makes `request_sync`
return the parsed 200 payload after exactly 3 underlying HTTP calls,
having slept `backoff_delay(0)` and `backoff_delay(1)`. -/
theorem request_sync_429_429_200 (rl : RateLimiter) (net : Nat → HttpEvent)
    (t0 t1 t2 : String) (j0 j1 : Option ApiResult) (r : ApiResult)
    (hmax : 2 ≤ rl.max_retries)
    (h0 : net 0 = .resp 429 t0 j0) (h1 : net 1 = .resp 429 t1 j1)
    (h2 : net 2 = .resp 200 t2 (some r)) :
    request_sync rl true net =
      { result := .ok r, calls := 3
        sleeps := [rl.retry_delay * 2 ^ 0, rl.retry_delay * 2 ^ 1]
        usedPostLoopRaise := false } := by
  obtain ⟨k, hk⟩ := Nat.exists_eq_add_of_le hmax
  have hk1 : rl.max_retries + 1 = (k + 2) + 1 := by omega
  have hsplit : k + 2 = (k + 1) + 1 := rfl
  rw [request_sync, hk1,
    request_sync_loop_step_429 rl true net _ 0 [] t0 j0 h0 rfl (by omega),
    hsplit,
    request_sync_loop_step_429 rl true net _ 1 _ t1 j1 h1 rfl (by omega),
    request_sync_loop_done_200 rl true net _ 2 _ t2 (some r) h2]
  simp

/-- **C4 witness**: the scenario instantiated at `max_retries = 2`,
`retry_delay = 5`. -/
theorem request_sync_429_429_200_witness :
    request_sync wRL true wNet3 =
      { result := .ok wOk, calls := 3
        sleeps := [wRL.retry_delay * 2 ^ 0, wRL.retry_delay * 2 ^ 1]
        usedPostLoopRaise := false } :=
  request_sync_429_429_200 wRL wNet3 "slow down" "slow down" "body"
    none none wOk (by decide) rfl rfl rfl

/-- **C1 counterexample.**  The claim says a malformed / non-JSON 200 body
is an `APIKind` failure.  On the code, `response.json()`'s
`JSONDecodeError` escapes `request_sync` uncaught (the only handler is for
`requests.Timeout`), so the call fails with a foreign error that is not an
`APIError`: at a concrete input the outcome is `jsonDecodeError`, and
`jsonDecodeError` is not in the `APIError` hierarchy. -/
theorem request_sync_malformed_counterexample :
    (request_sync wRL true wNet200Bad).result = .error .jsonDecodeError ∧
    PyError.isAPIError .jsonDecodeError = false ∧
    (request_sync wRL true wNet200Bad).calls = 1 := ⟨rfl, rfl, rfl⟩

/-- **C1 (amended).**  On an HTTP 200 response at any attempt
`attempt ≤ max_retries`: a well-formed JSON body makes the dispatcher
return the parsed body; a malformed / non-JSON body makes the call fail
with the foreign `JSONDecodeError`, which is not an `APIKind` error. -/
theorem request_sync_200_behavior (rl : RateLimiter) (enable : Bool)
    (net : Nat → HttpEvent) (attempt : Nat) (text : String)
    (json : Option ApiResult) (sleeps : List ℚ)
    (hle : attempt ≤ rl.max_retries)
    (hnet : net attempt = .resp 200 text json) :
    request_sync_loop rl enable net (rl.max_retries + 1 - attempt) attempt
        sleeps =
      { result := match json with
          | some r => .ok r
          | none => .error .jsonDecodeError
        calls := attempt + 1, sleeps := sleeps
        usedPostLoopRaise := false } ∧
    PyError.isAPIError .jsonDecodeError = false := by
  have hrem : rl.max_retries + 1 - attempt = (rl.max_retries - attempt) + 1 :=
    by omega
  refine ⟨?_, rfl⟩
  rw [hrem,
    request_sync_loop_done_200 rl enable net _ attempt sleeps text json hnet]

/-- **C1 witness**: a well-formed 200 body at attempt 0 is returned
parsed. -/
theorem request_sync_200_behavior_witness :
    request_sync_loop wRL true wNet200Ok (wRL.max_retries + 1 - 0) 0 [] =
      { result := .ok wOk, calls := 1, sleeps := []
        usedPostLoopRaise := false } :=
  (request_sync_200_behavior wRL true wNet200Ok 0 "body" (some wOk) []
    (by decide) rfl).1

/-- **C8.** For every configuration with `max_retries ≥ 0` and every
network behavior, both retry loops terminate by returning a parsed
response or raising inside the loop body: the defensive post-loop
"retries exhausted" raise (and, in the async variant, the post-loop
re-raise of `last_error`) is never executed. -/
theorem retry_loop_postloop_unreachable (rl : RateLimiter) (enable : Bool)
    (net : Nat → HttpEvent) :
    (request_sync rl enable net).usedPostLoopRaise = false ∧
    (make_api_request_async rl enable net).usedPostLoopRaise = false :=
  ⟨request_sync_loop_no_postloop rl enable net (rl.max_retries + 1) 0 []
      (by omega) (by omega),
    make_async_loop_no_postloop rl enable net (rl.max_retries + 1) 0 [] none
      (by omega) (by omega)⟩

/-- **C5.** For a page whose first pass succeeds with a non-empty
`choices` array (and a fallback mode string naming a real mode): the
fallback dispatcher call happens exactly when fallback is enabled, the
active mode is the fast default `free_ocr`, and the cleaned first-pass
text is strictly shorter than `min_output_threshold`; when the fallback
call succeeds with a non-empty `choices` array its cleaned text replaces
the first-pass text unconditionally, with exactly 2 dispatcher calls for
the page; and no page ever makes more than 2 dispatcher calls. -/
theorem process_page_fallback_policy (cfg : PageCfg) (mode : OCRMode)
    (fm : OCRMode) (r : ApiResult) (c : Choice) (cs : List Choice)
    (fallbackResp : Except PyError ApiResult)
    (hchoices : r.choices = some (c :: cs))
    (hfm : OCRMode.ofValue? cfg.fallback_mode = some fm) :
    ((process_page cfg mode (.ok r) fallbackResp).2 = 2 ↔
      (cfg.fallback_enabled = true ∧ mode = .free_ocr ∧
        (clean_output c.message.content).length < cfg.min_output_threshold)) ∧
    (∀ fr fc fcs, fallbackResp = .ok fr → fr.choices = some (fc :: fcs) →
      cfg.fallback_enabled = true → mode = .free_ocr →
      (clean_output c.message.content).length < cfg.min_output_threshold →
      process_page cfg mode (.ok r) fallbackResp =
        (.ok (clean_output fc.message.content), 2)) ∧
    ((process_page cfg mode (.ok r) fallbackResp).2 = 1 ∨
      (process_page cfg mode (.ok r) fallbackResp).2 = 2) := by
  refine ⟨?_, ?_, ?_⟩
  · by_cases hcond : cfg.fallback_enabled = true ∧ mode = .free_ocr ∧
        (clean_output c.message.content).length < cfg.min_output_threshold
    · simp only [process_page, hchoices, if_pos hcond, hfm]
      cases fallbackResp with
      | error e => simp [hcond]
      | ok fr =>
        cases hfc : fr.choices with
        | none => simp [hfc, hcond]
        | some l => cases l <;> simp [hfc, hcond]
    · simp [process_page, hchoices, if_neg hcond, hcond]
  · intro fr fc fcs hresp hfrc h1 h2 h3
    subst hresp
    have hcond : cfg.fallback_enabled = true ∧ mode = .free_ocr ∧
        (clean_output c.message.content).length < cfg.min_output_threshold :=
      ⟨h1, h2, h3⟩
    simp [process_page, hchoices, if_pos hcond, hfm, hfrc]
  · by_cases hcond : cfg.fallback_enabled = true ∧ mode = .free_ocr ∧
        (clean_output c.message.content).length < cfg.min_output_threshold
    · simp only [process_page, hchoices, if_pos hcond, hfm]
      cases fallbackResp with
      | error e => simp
      | ok fr =>
        cases hfc : fr.choices with
        | none => simp [hfc]
        | some l => cases l <;> simp [hfc]
    · simp [process_page, hchoices, if_neg hcond]

/-- **C5 witness**: with the default configuration in `free_ocr` mode, a
"Short" first pass triggers the fallback, and a successful fallback whose
text "Tiny" is *also* below the threshold still replaces the first-pass
text, with exactly 2 dispatcher calls. -/
theorem process_page_fallback_policy_witness :
    process_page wCfg .free_ocr (.ok wShort) (.ok wTiny) =
      (.ok (clean_output wTinyChoice.message.content), 2) :=
  (process_page_fallback_policy wCfg .free_ocr .grounding wShort wShortChoice
      [] (.ok wTiny) rfl rfl).2.1 wTiny wTinyChoice [] rfl rfl rfl rfl
    (by decide)

/-- **C6.** For every page whose first pass succeeds (non-empty `choices`)
and whose fallback dispatcher call fails with any exception, the page's
outcome is a success carrying the original cleaned first-pass text: the
exception is caught inside the fallback `try` block and never escapes the
page pipeline. -/
theorem process_page_fallback_failure_keeps_text (cfg : PageCfg)
    (mode : OCRMode) (r : ApiResult) (c : Choice) (cs : List Choice)
    (e : PyError) (hchoices : r.choices = some (c :: cs)) :
    (process_page cfg mode (.ok r) (.error e)).1 =
      .ok (clean_output c.message.content) := by
  by_cases hcond : cfg.fallback_enabled = true ∧ mode = .free_ocr ∧
      (clean_output c.message.content).length < cfg.min_output_threshold
  · cases hfm : OCRMode.ofValue? cfg.fallback_mode <;>
      simp [process_page, hchoices, if_pos hcond, hfm]
  · simp [process_page, hchoices, if_neg hcond]

/-- **C6 witness**: a "Short" first pass whose fallback call raises an
`APIError` yields the page text "Short" (cleaned) with no escaping
exception. -/
theorem process_page_fallback_failure_keeps_text_witness :
    (process_page wCfg .free_ocr (.ok wShort)
        (.error (.apiError "API request failed: boom" (some 500)
          (some "boom")))).1 =
      .ok (clean_output wShortChoice.message.content) :=
  process_page_fallback_failure_keeps_text wCfg .free_ocr wShort wShortChoice
    [] _ rfl

/-- `collectOk` on a list of all-successful outcomes returns all texts in
order. -/
theorem collectOk_all_ok :
    ∀ l : List (Except PyError String), (∀ x ∈ l, x.isOk = true) →
      collectOk l = .ok (l.map okD) := by
  intro l
  induction l with
  | nil => intro _; rfl
  | cons x rest ih =>
    intro h
    cases x with
    | error e =>
        have hx := h _ (List.mem_cons_self _ _)
        simp [Except.isOk, Except.toBool] at hx
    | ok t =>
        simp only [collectOk, List.map_cons, okD]
        rw [ih (fun y hy => h y (List.mem_cons_of_mem _ hy))]
        rfl

/-- `collectOk` re-raises the first error: successes before it do not mask
it. -/
theorem collectOk_first_error (e : PyError) :
    ∀ (l1 l2 : List (Except PyError String)),
      (∀ x ∈ l1, x.isOk = true) →
      collectOk (l1 ++ .error e :: l2) = .error e := by
  intro l1
  induction l1 with
  | nil => intro l2 _; rfl
  | cons x rest ih =>
    intro l2 h
    cases x with
    | error e' =>
        have hx := h _ (List.mem_cons_self _ _)
        simp [Except.isOk, Except.toBool] at hx
    | ok t =>
        have hsplit :
            ((Except.ok t : Except PyError String) :: rest) ++
                Except.error e :: l2 =
              Except.ok t :: (rest ++ Except.error e :: l2) := rfl
        rw [hsplit]
        simp only [collectOk]
        rw [ih l2 (fun y hy => h y (List.mem_cons_of_mem _ hy))]
        rfl

/-- The sequential page loop of `DeepSeekOCR.parse` computes the same
per-page outcome sequence as the async gather-then-collect loop. -/
theorem parse_pages_sync_eq_collect (cfg : PageCfg) (mode : OCRMode) :
    ∀ pages : List (Except PyError ApiResult × Except PyError ApiResult),
      parse_pages_sync cfg mode pages =
        collectOk (pages.map fun p => (process_page cfg mode p.1 p.2).1) := by
  intro pages
  induction pages with
  | nil => rfl
  | cons p rest ih =>
    cases hp : (process_page cfg mode p.1 p.2).1 with
    | error e => simp only [parse_pages_sync, List.map_cons, collectOk, hp]
    | ok t =>
        simp only [parse_pages_sync, List.map_cons, collectOk, hp]
        rw [ih]

/-- After the index-directed writes of the fan-in loop, the length of the
accumulator is unchanged. -/
theorem foldl_set_length (v : Nat → String) :
    ∀ (order : List Nat) (acc : List String),
      (order.foldl (fun a idx => a.set idx (v idx)) acc).length =
        acc.length := by
  intro order
  induction order with
  | nil => intro acc; rfl
  | cons j rest ih =>
      intro acc
      rw [List.foldl_cons, ih, List.length_set]

/-- Element `i` after the index-directed writes: positions written at
least once hold `v i` (every write to `i` writes the same value, so the
write order is irrelevant); unwritten positions keep their old value. -/
theorem foldl_set_get? (v : Nat → String) :
    ∀ (order : List Nat) (acc : List String) (i : Nat),
      (order.foldl (fun a idx => a.set idx (v idx)) acc).get? i =
        if i ∈ order ∧ i < acc.length then some (v i) else acc.get? i := by
  intro order
  induction order with
  | nil => intro acc i; simp
  | cons j rest ih =>
    intro acc i
    rw [List.foldl_cons, ih]
    simp only [List.length_set]
    by_cases hmem : i ∈ rest
    · by_cases hlen : i < acc.length
      · rw [if_pos ⟨hmem, hlen⟩,
          if_pos ⟨List.mem_cons_of_mem _ hmem, hlen⟩]
      · rw [if_neg (fun hc => hlen hc.2), if_neg (fun hc => hlen hc.2)]
        have h1 : (acc.set j (v j)).get? i = none := by
          rw [List.get?_eq_none]
          simp only [List.length_set]
          omega
        have h2 : acc.get? i = none := by
          rw [List.get?_eq_none]; omega
        rw [h1, h2]
    · by_cases hij : i = j
      · subst hij
        by_cases hlen : i < acc.length
        · rw [if_neg (fun hc => hmem hc.1),
            if_pos ⟨List.mem_cons_self _ _, hlen⟩]
          rw [List.get?_eq_getElem?]
          exact List.getElem?_set_eq_of_lt (v i) hlen
        · rw [if_neg (fun hc => hmem hc.1), if_neg (fun hc => hlen hc.2)]
          rw [List.set_eq_of_length_le (by omega)]
      · rw [if_neg (fun hc => hmem hc.1)]
        have hji : j ≠ i := fun h => hij h.symm
        rw [List.get?_eq_getElem?, List.getElem?_set_ne hji,
          ← List.get?_eq_getElem?]
        have : ¬ (i ∈ j :: rest ∧ i < acc.length) := by
          intro hc
          rcases List.mem_cons.mp hc.1 with h | h
          · exact hij h
          · exact hmem h
        rw [if_neg this]

/-- When the completion order covers every page index, the fan-in array
holds each page's text (or `""` for a failed page) at its original index,
independently of the completion order. -/
theorem fillTexts_spec (results : List (Except PyError String))
    (order : List Nat) (hcov : ∀ i, i < results.length → i ∈ order) :
    fillTexts results order = results.map okD := by
  apply List.ext_get?_iff.mpr
  intro i
  rw [fillTexts, foldl_set_get? (fun idx => textOrEmpty (results.get? idx))]
  simp only [List.length_replicate]
  by_cases hlen : i < results.length
  · rw [if_pos ⟨hcov i hlen, hlen⟩]
    cases hres : results.get? i with
    | none =>
        rw [List.get?_eq_none] at hres
        omega
    | some r =>
        rw [List.get?_eq_getElem?, List.getElem?_map, ← List.get?_eq_getElem?,
          hres]
        cases r <;> rfl
  · rw [if_neg (fun hc => hlen hc.2)]
    have h1 : (List.replicate results.length "").get? i = none := by
      rw [List.get?_eq_none, List.length_replicate]; omega
    have h2 : (results.map okD).get? i = none := by
      rw [List.get?_eq_none, List.length_map]; omega
    rw [h1, h2]

/-- **C7.** For a document whose pages all process successfully, the
document text equals the per-page (cleaned) texts joined with the page
separator in original index order — for the sequential loop of `parse`,
for the cooperative fan-out of `parse_async`, and for the thread-pool
fan-in of `VLMClient.parse` under *any* completion order covering the
page indices. -/
theorem document_text_in_page_order (cfg : PageCfg) (mode : OCRMode)
    (pages : List (Except PyError ApiResult × Except PyError ApiResult))
    (hok : ∀ p ∈ pages, ((process_page cfg mode p.1 p.2).1).isOk = true) :
    parse_model cfg mode pages =
      .ok (String.intercalate cfg.page_separator
        (pages.map fun p => okD (process_page cfg mode p.1 p.2).1)) ∧
    parse_async_model cfg mode pages =
      .ok (String.intercalate cfg.page_separator
        (pages.map fun p => okD (process_page cfg mode p.1 p.2).1)) ∧
    (∀ (conc : Nat) (resps : List (Except PyError ApiResult))
        (order : List Nat),
      (∀ i, i < resps.length → i ∈ order) →
      (∀ resp ∈ resps, (vlm_process_single_page resp).isOk = true) →
      vlm_parse_model conc resps order =
        .ok (String.intercalate vlm_page_separator
          (resps.map fun resp => okD (vlm_process_single_page resp)))) := by
  have hmapok : ∀ x ∈ pages.map fun p => (process_page cfg mode p.1 p.2).1,
      x.isOk = true := by
    intro x hx
    obtain ⟨p, hp, rfl⟩ := List.mem_map.mp hx
    exact hok p hp
  refine ⟨?_, ?_, ?_⟩
  · rw [parse_model, parse_pages_sync_eq_collect,
      collectOk_all_ok _ hmapok, List.map_map]
    rfl
  · rw [parse_async_model, collectOk_all_ok _ hmapok, List.map_map]
    rfl
  · intro conc resps order hcov hvok
    by_cases hbr : 1 < conc ∧ 1 < resps.length
    · rw [vlm_parse_model]
      simp only [if_pos hbr]
      rw [fillTexts_spec _ order (by simpa using hcov), List.map_map]
      rfl
    · rw [vlm_parse_model]
      simp only [if_neg hbr]
      rw [collectOk_all_ok _ (by
        intro x hx
        obtain ⟨resp, hresp, rfl⟩ := List.mem_map.mp hx
        exact hvok resp hresp), List.map_map]
      rfl

/-- **C7 witness**: a two-page document joined in order "P1", "P2" by the
sequential pipeline, and by the thread-pool fan-in even under the reversed
completion order `[1, 0]`. -/
theorem document_text_in_page_order_witness :
    parse_model wCfg .grounding wPages =
      .ok (String.intercalate wCfg.page_separator
        (wPages.map fun p => okD (process_page wCfg .grounding p.1 p.2).1)) ∧
    vlm_parse_model 2 wResps [1, 0] =
      .ok (String.intercalate vlm_page_separator
        (wResps.map fun resp => okD (vlm_process_single_page resp))) :=
  ⟨(document_text_in_page_order wCfg .grounding wPages (by decide)).1,
    (document_text_in_page_order wCfg .grounding wPages (by decide)).2.2
      2 wResps [1, 0] (by decide) (by decide)⟩

/-- **C2 counterexample.**  The claim asserts that *every* execution
strategy propagates a single page's unrecoverable dispatcher failure.  In
the thread-pool strategy of `VLMClient.parse`, a concrete run in which
page 0's dispatcher call fails with a non-retryable `APIError` returns a
successful document in which the failed page is replaced by empty text. -/
theorem vlm_threadpool_failure_swallowed :
    vlm_parse_model 2 [.error wBoom, .ok wB] [0, 1] = .ok "\n\n---\n\nB" ∧
    PyError.isAPIError wBoom = true :=
  ⟨rfl, rfl⟩

/-- **C2 (amended).**  A single page's unrecoverable dispatcher failure
fails the whole document call in the sequential (`DeepSeekOCR.parse`) and
cooperative-concurrent (`DeepSeekOCR.parse_async`) strategies, which
re-raise the first failed page's error; the thread-pool-concurrent
strategy (`VLMClient.parse` with concurrency > 1 on a multi-page
document) instead catches per-page exceptions and returns a document in
which each failed page is represented as empty text. -/
theorem page_failure_propagation (cfg : PageCfg) (mode : OCRMode)
    (pre post : List (Except PyError ApiResult × Except PyError ApiResult))
    (p : Except PyError ApiResult × Except PyError ApiResult) (e : PyError)
    (herr : (process_page cfg mode p.1 p.2).1 = .error e)
    (hpre : ∀ q ∈ pre, ((process_page cfg mode q.1 q.2).1).isOk = true) :
    parse_model cfg mode (pre ++ p :: post) = .error e ∧
    parse_async_model cfg mode (pre ++ p :: post) = .error e ∧
    (∀ (resps : List (Except PyError ApiResult)) (order : List Nat)
        (i conc : Nat), 1 < conc → 1 < resps.length →
      resps.get? i = some (.error e) →
      (∀ j, j < resps.length → j ∈ order) →
      vlm_parse_model conc resps order =
          .ok (String.intercalate vlm_page_separator
            ((resps.map vlm_process_single_page).map okD)) ∧
        ((resps.map vlm_process_single_page).map okD).get? i = some "") := by
  have hmapok : ∀ x ∈ pre.map fun q => (process_page cfg mode q.1 q.2).1,
      x.isOk = true := by
    intro x hx
    obtain ⟨q, hq, rfl⟩ := List.mem_map.mp hx
    exact hpre q hq
  have hsplit :
      (pre ++ p :: post).map (fun q => (process_page cfg mode q.1 q.2).1) =
        (pre.map fun q => (process_page cfg mode q.1 q.2).1) ++
          Except.error e ::
            (post.map fun q => (process_page cfg mode q.1 q.2).1) := by
    rw [List.map_append, List.map_cons, herr]
  refine ⟨?_, ?_, ?_⟩
  · rw [parse_model, parse_pages_sync_eq_collect, hsplit,
      collectOk_first_error e _ _ hmapok]
    rfl
  · rw [parse_async_model, hsplit, collectOk_first_error e _ _ hmapok]
    rfl
  · intro resps order i conc hconc hlen hi hcov
    constructor
    · rw [vlm_parse_model]
      simp only [if_pos (And.intro hconc hlen)]
      rw [fillTexts_spec _ order (by simpa using hcov)]
    · rw [List.get?_eq_getElem?, List.getElem?_map, List.getElem?_map,
        ← List.get?_eq_getElem?, hi]
      rfl

/-- **C2 witness**: a one-page document whose page fails with a
non-retryable `APIError` makes the sequential and cooperative pipelines
fail with that error, while the thread-pool run of the counterexample
returns a document. -/
theorem page_failure_propagation_witness :
    parse_model wCfg .grounding
        [((.error wBoom : Except PyError ApiResult),
          (.error wBoom : Except PyError ApiResult))] = .error wBoom ∧
    parse_async_model wCfg .grounding
        [((.error wBoom : Except PyError ApiResult),
          (.error wBoom : Except PyError ApiResult))] = .error wBoom ∧
    vlm_parse_model 2 [.error wBoom, .ok wB] [0, 1] =
      .ok (String.intercalate vlm_page_separator
        (([.error wBoom, .ok wB].map vlm_process_single_page).map okD)) :=
  ⟨(page_failure_propagation wCfg .grounding [] []
      (.error wBoom, .error wBoom) wBoom rfl (by simp)).1,
    (page_failure_propagation wCfg .grounding [] []
      (.error wBoom, .error wBoom) wBoom rfl (by simp)).2.1,
    ((page_failure_propagation wCfg .grounding [] []
      (.error wBoom, .error wBoom) wBoom rfl (by simp)).2.2
        [.error wBoom, .ok wB] [0, 1] 0 2 (by decide) (by decide) rfl
        (by decide)).1⟩

/-- **C10.** The `deepseek_ocr` client reads the configuration attributes
`request_delay`, `enable_rate_limit_retry`, `max_rate_limit_retries`,
`rate_limit_retry_delay` and `page_separator`, none of which is a field of
that package's `OCRConfig` dataclass; consequently both `parse` and
`parse_async`, run against an `OCRConfig`, abort with an
`AttributeError` (at the `max_rate_limit_retries` read of the first
page's request) before any page's HTTP call, hence before completing any
page. -/
theorem deepseek_ocr_config_missing_fields :
    (∀ name ∈ deepseekClientConfigReads, name ∉ OCRConfig.fieldNames) ∧
    runReads OCRConfig.fieldNames parse_configReadTrace =
      .error (.attributeError "max_rate_limit_retries") ∧
    runReads OCRConfig.fieldNames parse_async_configReadTrace =
      .error (.attributeError "max_rate_limit_retries") :=
  ⟨by decide, rfl, rfl⟩
